import Mathlib

/-!
Verification of the three AWS Lambda handlers in `lambda.py` of the
Scones Unlimited ML workflow repository.  The Python code is shallowly
embedded: Python values become an inductive `PyVal`, exceptions become
`PyExn`, and each handler becomes a total Lean function returning
`PyResult PyVal` (either a returned value or a raised exception).  The
S3 object store is passed explicitly as a finite association list; the
`download_file` call followed by reading `/tmp/image.png` is modelled as
a direct lookup of the object bytes (the temporary-file indirection and
the `print` statement have no observable effect on the returned value).
-/

namespace MLWorkflow

/-- Embedded Python values: the types that appear in the three handlers
(strings, ints, floats, bytes, lists, string-keyed dicts).  Python
floats are modelled as exact rationals. -/
inductive PyVal : Type where
  | str (s : String)
  | int (n : Int)
  | float (q : ℚ)
  | bytes (b : String)
  | list (xs : List PyVal)
  | dict (entries : List (String × PyVal))

/-- The Python exceptions the embedded code can raise. -/
inductive PyExn : Type where
  | keyError (k : String)
  | attributeError (msg : String)
  | typeError (msg : String)
  | valueError (msg : String)
  | indexError (msg : String)
  | clientError (msg : String)
deriving DecidableEq

/-- Outcome of running a handler: a returned value or a raised exception. -/
inductive PyResult (α : Type) : Type where
  | ok (a : α)
  | exn (e : PyExn)

/-- Lookup `d[k]` on a Python dict embedded as an association list. -/
def dictGet (entries : List (String × PyVal)) (k : String) : Option PyVal :=
  (entries.find? (fun p => p.1 == k)).map Prod.snd

/-- No value of the embedded universe (str, int, float, bytes, list,
dict) is an instance or subclass of Python `BaseException`. -/
def isBaseException : PyVal → Bool
  | _ => false

/-- Python 3 semantics of the statement `raise v`: when `v` is not a
`BaseException` instance or class, the interpreter itself raises
`TypeError: exceptions must derive from BaseException`; the raised
value is discarded. -/
def pyRaiseStmt (v : PyVal) : PyExn :=
  if isBaseException v then
    PyExn.typeError "impossible in the embedded universe"
  else
    PyExn.typeError "exceptions must derive from BaseException"

/-- The base64 alphabet, as in `base64.b64encode`. -/
def base64Alphabet : List Char :=
  "ABCDEFGHIJKLMNOPQRSTUVWXYZabcdefghijklmnopqrstuvwxyz0123456789+/".toList

/-- Character for a 6-bit group. -/
def b64Char (n : Nat) : Char := base64Alphabet.getD n 'A'

/-- Standard base64 of a byte list, with `=` padding, as produced by
`base64.b64encode`. -/
def b64encodeChars : List Nat → List Char
  | [] => []
  | [a] => [b64Char (a / 4), b64Char (a % 4 * 16), '=', '=']
  | [a, b] => [b64Char (a / 4), b64Char (a % 4 * 16 + b / 16), b64Char (b % 16 * 4), '=']
  | a :: b :: c :: rest =>
      b64Char (a / 4) :: b64Char (a % 4 * 16 + b / 16) ::
      b64Char (b % 16 * 4 + c / 64) :: b64Char (c % 64) :: b64encodeChars rest

/-- `base64.b64encode` returning an ASCII bytes object, rendered as a
string of base64 characters. -/
def b64encode (bs : List Nat) : String := String.mk (b64encodeChars bs)

/-- The S3 object store visible to `s3.download_file`: a finite map
from (bucket, key) to the raw object bytes. -/
structure S3State : Type where
  objects : List ((String × String) × List Nat)

/-- `s3.download_file bucket key dst` followed by reading `dst`:
the bytes of the object when it exists. -/
def getObject (s3 : S3State) (bucket key : String) : Option (List Nat) :=
  (s3.objects.find? (fun p => p.1.1 == bucket && p.1.2 == key)).map Prod.snd

/-- First handler (`serializeImageData`, lambda.py lines 38-62): read
`s3_key` and `s3_bucket` from the event, download the object, base64
encode it, and return a 200 response whose body carries the image data,
the unchanged key and bucket, and an empty inference list.  Every
failure (missing field, missing object) raises; nothing is caught. -/
def serialize_lambda_handler (s3 : S3State) (event _context : PyVal) : PyResult PyVal :=
  match event with
  | .dict entries =>
    match dictGet entries "s3_key" with
    | none => .exn (.keyError "s3_key")
    | some keyV =>
      match dictGet entries "s3_bucket" with
      | none => .exn (.keyError "s3_bucket")
      | some bucketV =>
        match keyV, bucketV with
        | .str key, .str bucket =>
          match getObject s3 bucket key with
          | none => .exn (.clientError "An error occurred (404) when calling the HeadObject operation")
          | some content =>
            let image_data := PyVal.bytes (b64encode content)
            .ok (.dict [("statusCode", .int 200),
                        ("body", .dict [("image_data", image_data),
                                        ("s3_bucket", .str bucket),
                                        ("s3_key", .str key),
                                        ("inferences", .list [])])])
        | _, _ => .exn (.typeError "expected string for bucket and key")
  | _ => .exn (.typeError "event is not subscriptable")

/-- Second handler (the "classifier", lambda.py lines 80-104).  The
source text of this function is a verbatim copy of the first handler:
it reads `s3_key` and `s3_bucket`, downloads the object, base64 encodes
it and returns it with an empty `inferences` list.  It never decodes
`image_data` and never calls a model endpoint. -/
def classifier_lambda_handler (s3 : S3State) (event _context : PyVal) : PyResult PyVal :=
  match event with
  | .dict entries =>
    match dictGet entries "s3_key" with
    | none => .exn (.keyError "s3_key")
    | some keyV =>
      match dictGet entries "s3_bucket" with
      | none => .exn (.keyError "s3_bucket")
      | some bucketV =>
        match keyV, bucketV with
        | .str key, .str bucket =>
          match getObject s3 bucket key with
          | none => .exn (.clientError "An error occurred (404) when calling the HeadObject operation")
          | some content =>
            let image_data := PyVal.bytes (b64encode content)
            .ok (.dict [("statusCode", .int 200),
                        ("body", .dict [("image_data", image_data),
                                        ("s3_bucket", .str bucket),
                                        ("s3_key", .str key),
                                        ("inferences", .list [])])])
        | _, _ => .exn (.typeError "expected string for bucket and key")
  | _ => .exn (.typeError "event is not subscriptable")

/-- The fixed confidence threshold of the third handler
(`THRESHOLD = .70`, lambda.py line 114), as an exact rational. -/
def THRESHOLD : ℚ := mkRat 7 10

/-- Python `s.split(sep)` for a one-character separator, over the
character list of the string: adjacent separators and separators at the
ends produce empty fields, and the empty string yields one empty field. -/
def splitOnChar (sep : Char) : List Char → List (List Char)
  | [] => [[]]
  | c :: cs =>
    if c = sep then [] :: splitOnChar sep cs
    else
      match splitOnChar sep cs with
      | [] => [[c]]
      | g :: gs => (c :: g) :: gs

/-- Numeric value of a digit string. -/
def digitsVal (cs : List Char) : Nat :=
  cs.foldl (fun acc c => acc * 10 + (c.toNat - 48)) 0

/-- Whether every character of the list is a decimal digit. -/
def isDigits (cs : List Char) : Bool := cs.all (fun c => c.isDigit)

/-- Model of Python `float(s)` restricted to plain signed decimal
literals (an optional sign, digits, an optional point and fractional
digits), the shape the inference strings of this workflow take; other
inputs give `none` (a `ValueError`).  The value is exact as a rational:
`d₁d₂.f₁f₂` becomes `(d₁d₂ * 100 + f₁f₂) / 100`. -/
def pyFloat (cs : List Char) : Option ℚ :=
  let signed : Int × List Char :=
    match cs with
    | '-' :: r => (-1, r)
    | '+' :: r => (1, r)
    | r => (1, r)
  match splitOnChar '.' signed.2 with
  | [ip] =>
      if !ip.isEmpty && isDigits ip then
        some (mkRat (signed.1 * digitsVal ip) 1)
      else none
  | [ip, fp] =>
      if (!ip.isEmpty || !fp.isEmpty) && isDigits ip && isDigits fp then
        some (mkRat (signed.1 * (digitsVal ip * 10 ^ fp.length + digitsVal fp)) (10 ^ fp.length))
      else none
  | _ => none

/-- `float(x.split(":")[1])` for one comma-separated entry of the
`inferences` string: an `IndexError` when there is no `:`-separated
second field, a `ValueError` when it is not a float literal. -/
def parseEntry (x : List Char) : PyResult ℚ :=
  match (splitOnChar ':' x).get? 1 with
  | none => .exn (.indexError "list index out of range")
  | some v =>
    match pyFloat v with
    | none => .exn (.valueError "could not convert string to float")
    | some q => .ok q

/-- Evaluate the list comprehension
`[float(x.split(":")[1]) for x in inferences.split(",")]`: the first
entry that fails raises; otherwise all parsed values are collected. -/
def parseAll : List (List Char) → PyResult (List ℚ)
  | [] => .ok []
  | x :: xs =>
    match parseEntry x with
    | .exn e => .exn e
    | .ok q =>
      match parseAll xs with
      | .exn e => .exn e
      | .ok qs => .ok (q :: qs)

/-- Escape the characters `json.dumps` must escape in a string (the
control characters do not occur in this development). -/
def jsonEscapeChars : List Char → List Char
  | [] => []
  | c :: cs =>
    if c = '"' then '\\' :: '"' :: jsonEscapeChars cs
    else if c = '\\' then '\\' :: '\\' :: jsonEscapeChars cs
    else c :: jsonEscapeChars cs

/-- String form of `jsonEscapeChars`. -/
def jsonEscape (s : String) : String := String.mk (jsonEscapeChars s.toList)

mutual

/-- Model of Python `json.dumps` over the embedded value universe, with
the default separators.  A `bytes` value anywhere gives `none`: real
`json.dumps` raises `TypeError: Object of type bytes is not JSON
serializable`.  Rationals are rendered exactly. -/
def jsonDumps : PyVal → Option String
  | .str s => some ("\"" ++ jsonEscape s ++ "\"")
  | .int n => some (toString n)
  | .float q => some (toString q)
  | .bytes _ => none
  | .list xs => (jsonDumpsList xs).map (fun t => "[" ++ t ++ "]")
  | .dict es => (jsonDumpsEntries es).map (fun t => "\x7b" ++ t ++ "\x7d")

/-- Comma-separated rendering of a JSON array body. -/
def jsonDumpsList : List PyVal → Option String
  | [] => some ""
  | [x] => jsonDumps x
  | x :: y :: xs => do
      let a ← jsonDumps x
      let b ← jsonDumpsList (y :: xs)
      some (a ++ ", " ++ b)

/-- Comma-separated rendering of a JSON object body. -/
def jsonDumpsEntries : List (String × PyVal) → Option String
  | [] => some ""
  | [(k, v)] => (jsonDumps v).map (fun t => "\"" ++ jsonEscape k ++ "\": " ++ t)
  | (k, v) :: e :: es => do
      let a ← jsonDumps v
      let b ← jsonDumpsEntries (e :: es)
      some ("\"" ++ jsonEscape k ++ "\": " ++ a ++ ", " ++ b)

end

/-- Third handler (the threshold check, lambda.py lines 116-134): read
`event["inferences"]`, split the string on commas, parse
`label:value` entries to floats, and test whether any value reaches
`THRESHOLD`.  On success it returns a 200 response whose body is
`json.dumps(event)`; otherwise it executes
`raise("THRESHOLD_CONFIDENCE_NOT_MET")`.  Calling `.split` on a
non-string `inferences` raises before any comparison (`AttributeError`
for a list, `TypeError` for bytes, matching Python). -/
def threshold_lambda_handler (event _context : PyVal) : PyResult PyVal :=
  match event with
  | .dict entries =>
    match dictGet entries "inferences" with
    | none => .exn (.keyError "inferences")
    | some infV =>
      match infV with
      | .str inferences =>
        match parseAll (splitOnChar ',' inferences.toList) with
        | .exn e => .exn e
        | .ok confs =>
          let meets_threshold := confs.any (fun q => decide (THRESHOLD ≤ q))
          if meets_threshold then
            match jsonDumps event with
            | none => .exn (.typeError "Object of type bytes is not JSON serializable")
            | some body =>
              .ok (.dict [("statusCode", .int 200), ("body", .str body)])
          else
            .exn (pyRaiseStmt (.str "THRESHOLD_CONFIDENCE_NOT_MET"))
      | .bytes _ => .exn (.typeError "a bytes-like object is required")
      | _ => .exn (.attributeError "object has no attribute split")
  | _ => .exn (.typeError "event is not subscriptable")

/-!  Helper lemmas shared by the claims about the threshold handler. -/

/-- Reduction of a threshold-handler run once the `inferences` string
and its parsed confidence values are known. -/
theorem threshold_run (entries : List (String × PyVal)) (ctx : PyVal)
    (s : String) (qs : List ℚ)
    (hinf : dictGet entries "inferences" = some (.str s))
    (hparse : parseAll (splitOnChar ',' s.toList) = .ok qs) :
    threshold_lambda_handler (.dict entries) ctx =
      if qs.any (fun q => decide (THRESHOLD ≤ q)) then
        match jsonDumps (.dict entries) with
        | none => .exn (.typeError "Object of type bytes is not JSON serializable")
        | some body => .ok (.dict [("statusCode", .int 200), ("body", .str body)])
      else
        .exn (pyRaiseStmt (.str "THRESHOLD_CONFIDENCE_NOT_MET")) := by
  simp only [threshold_lambda_handler, hinf, hparse]

/-- A confidence at or above the threshold makes the scan succeed. -/
theorem any_threshold_of_exists {qs : List ℚ} (h : ∃ q ∈ qs, THRESHOLD ≤ q) :
    qs.any (fun q => decide (THRESHOLD ≤ q)) = true := by
  obtain ⟨q, hq, hle⟩ := h
  simp only [List.any_eq_true]
  exact ⟨q, hq, by simpa using hle⟩

/-- All confidences below the threshold make the scan fail. -/
theorem any_threshold_of_forall {qs : List ℚ} (h : ∀ q ∈ qs, q < THRESHOLD) :
    qs.any (fun q => decide (THRESHOLD ≤ q)) = false := by
  simp only [List.any_eq_false]
  intro q hq
  simpa using not_le.mpr (h q hq)

/-- C1: for every event whose `inferences` field parses as
comma-separated `label:value` entries (and which is a JSON value, as
every event delivered to the handler is), the threshold handler returns
a result with `statusCode` 200 when at least one parsed confidence
value is at least `THRESHOLD = 0.70`, and raises when every parsed
value is below `THRESHOLD`. -/
theorem threshold_success_and_failure (entries : List (String × PyVal)) (ctx : PyVal)
    (s : String) (qs : List ℚ) (body : String)
    (hinf : dictGet entries "inferences" = some (.str s))
    (hparse : parseAll (splitOnChar ',' s.toList) = .ok qs)
    (hjson : jsonDumps (.dict entries) = some body) :
    ((∃ q ∈ qs, THRESHOLD ≤ q) →
      threshold_lambda_handler (.dict entries) ctx =
        .ok (.dict [("statusCode", .int 200), ("body", .str body)])) ∧
    ((∀ q ∈ qs, q < THRESHOLD) →
      ∃ e, threshold_lambda_handler (.dict entries) ctx = .exn e) := by
  constructor
  · intro h
    rw [threshold_run entries ctx s qs hinf hparse, any_threshold_of_exists h]
    simp [hjson]
  · intro h
    have hrun := threshold_run entries ctx s qs hinf hparse
    rw [any_threshold_of_forall h] at hrun
    simp only [Bool.false_eq_true, if_false] at hrun
    exact ⟨_, hrun⟩

/-- Evaluation of `threshold_success_and_failure` at a concrete event
with confidences 0.62 and 0.95. -/
theorem threshold_success_and_failure_witness :
    threshold_lambda_handler (.dict [("inferences", .str "cat:0.62,dog:0.95")]) (.dict []) =
      .ok (.dict [("statusCode", .int 200),
                  ("body", .str "\x7b\"inferences\": \"cat:0.62,dog:0.95\"\x7d")]) :=
  (threshold_success_and_failure [("inferences", .str "cat:0.62,dog:0.95")] (.dict [])
      "cat:0.62,dog:0.95" [mkRat 62 100, mkRat 95 100]
      "\x7b\"inferences\": \"cat:0.62,dog:0.95\"\x7d" rfl rfl rfl).1
    ⟨mkRat 95 100, by decide, by decide⟩

/-- C4: whenever every parsed confidence is below the threshold, the
threshold handler raises and does not return a value; the handler has
no retry or recovery path. -/
theorem threshold_not_met_raises (entries : List (String × PyVal)) (ctx : PyVal)
    (s : String) (qs : List ℚ)
    (hinf : dictGet entries "inferences" = some (.str s))
    (hparse : parseAll (splitOnChar ',' s.toList) = .ok qs)
    (hall : ∀ q ∈ qs, q < THRESHOLD) :
    threshold_lambda_handler (.dict entries) ctx =
      .exn (pyRaiseStmt (.str "THRESHOLD_CONFIDENCE_NOT_MET")) ∧
    (∀ r, threshold_lambda_handler (.dict entries) ctx ≠ .ok r) := by
  have hrun := threshold_run entries ctx s qs hinf hparse
  rw [any_threshold_of_forall hall] at hrun
  simp only [Bool.false_eq_true, if_false] at hrun
  refine ⟨hrun, fun r hr => ?_⟩
  rw [hrun] at hr
  exact PyResult.noConfusion hr

/-- Evaluation of `threshold_not_met_raises` at a concrete event with
confidences 0.62 and 0.38, both below the threshold. -/
theorem threshold_not_met_raises_witness :
    threshold_lambda_handler (.dict [("inferences", .str "cat:0.62,dog:0.38")]) (.dict []) =
      .exn (pyRaiseStmt (.str "THRESHOLD_CONFIDENCE_NOT_MET")) :=
  (threshold_not_met_raises [("inferences", .str "cat:0.62,dog:0.38")] (.dict [])
      "cat:0.62,dog:0.38" [mkRat 62 100, mkRat 38 100] rfl rfl (by decide)).1

/-- C8: on the success path the threshold handler returns `statusCode`
200 and a body that is exactly `json.dumps` of the entire input event,
with every field of the event unchanged. -/
theorem threshold_success_returns_dumped_event (entries : List (String × PyVal)) (ctx : PyVal)
    (s : String) (qs : List ℚ) (body : String)
    (hinf : dictGet entries "inferences" = some (.str s))
    (hparse : parseAll (splitOnChar ',' s.toList) = .ok qs)
    (hjson : jsonDumps (.dict entries) = some body)
    (hq : ∃ q ∈ qs, THRESHOLD ≤ q) :
    threshold_lambda_handler (.dict entries) ctx =
      .ok (.dict [("statusCode", .int 200), ("body", .str body)]) := by
  rw [threshold_run entries ctx s qs hinf hparse, any_threshold_of_exists hq]
  simp [hjson]

/-- Evaluation of `threshold_success_returns_dumped_event` at a
concrete two-field event with confidence 0.86. -/
theorem threshold_success_returns_dumped_event_witness :
    threshold_lambda_handler
        (.dict [("inferences", .str "bicycle:0.86"), ("s3_key", .str "test/bicycle_s_000513.png")])
        (.dict []) =
      .ok (.dict [("statusCode", .int 200),
                  ("body", .str "\x7b\"inferences\": \"bicycle:0.86\", \"s3_key\": \"test/bicycle_s_000513.png\"\x7d")]) :=
  threshold_success_returns_dumped_event
    [("inferences", .str "bicycle:0.86"), ("s3_key", .str "test/bicycle_s_000513.png")]
    (.dict []) "bicycle:0.86" [mkRat 86 100]
    "\x7b\"inferences\": \"bicycle:0.86\", \"s3_key\": \"test/bicycle_s_000513.png\"\x7d"
    rfl rfl rfl ⟨mkRat 86 100, by decide, by decide⟩

/-- C10: on the failure branch the executed statement is
`raise("THRESHOLD_CONFIDENCE_NOT_MET")`; in Python 3 a `str` is not a
`BaseException`, so the exception that terminates the run is a
`TypeError` and does not carry the message as a structured exception. -/
theorem threshold_failure_raises_type_error (entries : List (String × PyVal)) (ctx : PyVal)
    (s : String) (qs : List ℚ)
    (hinf : dictGet entries "inferences" = some (.str s))
    (hparse : parseAll (splitOnChar ',' s.toList) = .ok qs)
    (hall : ∀ q ∈ qs, q < THRESHOLD) :
    pyRaiseStmt (.str "THRESHOLD_CONFIDENCE_NOT_MET") =
      .typeError "exceptions must derive from BaseException" ∧
    threshold_lambda_handler (.dict entries) ctx =
      .exn (.typeError "exceptions must derive from BaseException") := by
  have hrun := threshold_run entries ctx s qs hinf hparse
  rw [any_threshold_of_forall hall] at hrun
  simp only [Bool.false_eq_true, if_false] at hrun
  exact ⟨rfl, hrun⟩

/-- Evaluation of `threshold_failure_raises_type_error` at a concrete
event with confidence 0.11. -/
theorem threshold_failure_raises_type_error_witness :
    threshold_lambda_handler (.dict [("inferences", .str "truck:0.11")]) (.dict []) =
      .exn (.typeError "exceptions must derive from BaseException") :=
  (threshold_failure_raises_type_error [("inferences", .str "truck:0.11")] (.dict [])
      "truck:0.11" [mkRat 11 100] rfl rfl (by decide)).2

/-- C3: the shared data record documented at the top of lambda.py (and
produced by the first two handlers) carries `inferences` as a list, but
the threshold handler calls `.split(",")` on it, which raises an
`AttributeError` on a list before any threshold comparison happens. -/
theorem threshold_list_input_raises_before_comparison :
    threshold_lambda_handler (.dict [("inferences", .list [.float (mkRat 95 100)])]) (.dict []) =
      .exn (.attributeError "object has no attribute split") := rfl

/-- Reduction of a serialize-handler run once the key, the bucket and
the stored object are known. -/
theorem serialize_run (s3 : S3State) (entries : List (String × PyVal)) (ctx : PyVal)
    (k b : String) (content : List Nat)
    (hk : dictGet entries "s3_key" = some (.str k))
    (hb : dictGet entries "s3_bucket" = some (.str b))
    (hobj : getObject s3 b k = some content) :
    serialize_lambda_handler s3 (.dict entries) ctx =
      .ok (.dict [("statusCode", .int 200),
                  ("body", .dict [("image_data", .bytes (b64encode content)),
                                  ("s3_bucket", .str b),
                                  ("s3_key", .str k),
                                  ("inferences", .list [])])]) := by
  simp only [serialize_lambda_handler, hk, hb, hobj]

/-- C5: for every input event carrying string `s3_key` and `s3_bucket`
fields naming a stored object, the serialize handler returns a body
whose `s3_key` and `s3_bucket` fields are exactly the values read from
the input event, unchanged. -/
theorem serialize_preserves_key_and_bucket (s3 : S3State) (entries : List (String × PyVal))
    (ctx : PyVal) (k b : String) (content : List Nat)
    (hk : dictGet entries "s3_key" = some (.str k))
    (hb : dictGet entries "s3_bucket" = some (.str b))
    (hobj : getObject s3 b k = some content) :
    ∃ bodyEntries,
      serialize_lambda_handler s3 (.dict entries) ctx =
        .ok (.dict [("statusCode", .int 200), ("body", .dict bodyEntries)]) ∧
      dictGet bodyEntries "s3_key" = some (.str k) ∧
      dictGet bodyEntries "s3_bucket" = some (.str b) := by
  exact ⟨_, serialize_run s3 entries ctx k b content hk hb hobj, rfl, rfl⟩

/-- Evaluation of `serialize_preserves_key_and_bucket` at a concrete
store holding one three-byte object. -/
theorem serialize_preserves_key_and_bucket_witness :
    ∃ bodyEntries,
      serialize_lambda_handler ⟨[(("sagemaker-us-east-1-605922365623", "test/bicycle_s_000513.png"), [1, 2, 3])]⟩
          (.dict [("s3_key", .str "test/bicycle_s_000513.png"),
                  ("s3_bucket", .str "sagemaker-us-east-1-605922365623")]) (.dict []) =
        .ok (.dict [("statusCode", .int 200), ("body", .dict bodyEntries)]) ∧
      dictGet bodyEntries "s3_key" = some (.str "test/bicycle_s_000513.png") ∧
      dictGet bodyEntries "s3_bucket" = some (.str "sagemaker-us-east-1-605922365623") :=
  serialize_preserves_key_and_bucket
    ⟨[(("sagemaker-us-east-1-605922365623", "test/bicycle_s_000513.png"), [1, 2, 3])]⟩
    [("s3_key", .str "test/bicycle_s_000513.png"),
     ("s3_bucket", .str "sagemaker-us-east-1-605922365623")]
    (.dict []) "test/bicycle_s_000513.png" "sagemaker-us-east-1-605922365623" [1, 2, 3]
    rfl rfl rfl

/-- C7: on a successful run the serialize handler returns a body that
carries all four fields of the shared record: `inferences`, `s3_key`,
`s3_bucket` and `image_data`, so each field is present when the next
step reads it. -/
theorem serialize_body_has_all_four_fields (s3 : S3State) (entries : List (String × PyVal))
    (ctx : PyVal) (k b : String) (content : List Nat)
    (hk : dictGet entries "s3_key" = some (.str k))
    (hb : dictGet entries "s3_bucket" = some (.str b))
    (hobj : getObject s3 b k = some content) :
    ∃ bodyEntries,
      serialize_lambda_handler s3 (.dict entries) ctx =
        .ok (.dict [("statusCode", .int 200), ("body", .dict bodyEntries)]) ∧
      (dictGet bodyEntries "inferences").isSome = true ∧
      (dictGet bodyEntries "s3_key").isSome = true ∧
      (dictGet bodyEntries "s3_bucket").isSome = true ∧
      (dictGet bodyEntries "image_data").isSome = true := by
  exact ⟨_, serialize_run s3 entries ctx k b content hk hb hobj, rfl, rfl, rfl, rfl⟩

/-- Evaluation of `serialize_body_has_all_four_fields` at a concrete
store holding one object. -/
theorem serialize_body_has_all_four_fields_witness :
    ∃ bodyEntries,
      serialize_lambda_handler ⟨[(("bkt", "img.png"), [0])]⟩
          (.dict [("s3_key", .str "img.png"), ("s3_bucket", .str "bkt")]) (.dict []) =
        .ok (.dict [("statusCode", .int 200), ("body", .dict bodyEntries)]) ∧
      (dictGet bodyEntries "inferences").isSome = true ∧
      (dictGet bodyEntries "s3_key").isSome = true ∧
      (dictGet bodyEntries "s3_bucket").isSome = true ∧
      (dictGet bodyEntries "image_data").isSome = true :=
  serialize_body_has_all_four_fields ⟨[(("bkt", "img.png"), [0])]⟩
    [("s3_key", .str "img.png"), ("s3_bucket", .str "bkt")]
    (.dict []) "img.png" "bkt" [0] rfl rfl rfl

/-- C6: the first two handlers contain no error handling: a missing
`s3_key` field, a missing `s3_bucket` field, or a failing object fetch
each propagates out of both handlers as the corresponding raised
exception, unhandled. -/
theorem serialize_classifier_propagate_failures (s3 : S3State)
    (entries : List (String × PyVal)) (ctx : PyVal) :
    (dictGet entries "s3_key" = none →
      serialize_lambda_handler s3 (.dict entries) ctx = .exn (.keyError "s3_key") ∧
      classifier_lambda_handler s3 (.dict entries) ctx = .exn (.keyError "s3_key")) ∧
    (∀ k, dictGet entries "s3_key" = some (.str k) →
      dictGet entries "s3_bucket" = none →
      serialize_lambda_handler s3 (.dict entries) ctx = .exn (.keyError "s3_bucket") ∧
      classifier_lambda_handler s3 (.dict entries) ctx = .exn (.keyError "s3_bucket")) ∧
    (∀ k b, dictGet entries "s3_key" = some (.str k) →
      dictGet entries "s3_bucket" = some (.str b) →
      getObject s3 b k = none →
      serialize_lambda_handler s3 (.dict entries) ctx =
        .exn (.clientError "An error occurred (404) when calling the HeadObject operation") ∧
      classifier_lambda_handler s3 (.dict entries) ctx =
        .exn (.clientError "An error occurred (404) when calling the HeadObject operation")) := by
  refine ⟨fun hk => ?_, fun k hk hb => ?_, fun k b hk hb hobj => ?_⟩
  · constructor <;> simp only [serialize_lambda_handler, classifier_lambda_handler, hk]
  · constructor <;> simp only [serialize_lambda_handler, classifier_lambda_handler, hk, hb]
  · constructor <;>
      simp only [serialize_lambda_handler, classifier_lambda_handler, hk, hb, hobj]

/-- Evaluation of `serialize_classifier_propagate_failures` on an event
with no `s3_key` field. -/
theorem serialize_classifier_propagate_failures_witness :
    serialize_lambda_handler ⟨[]⟩ (.dict []) (.dict []) = .exn (.keyError "s3_key") ∧
    classifier_lambda_handler ⟨[]⟩ (.dict []) (.dict []) = .exn (.keyError "s3_key") :=
  (serialize_classifier_propagate_failures ⟨[]⟩ [] (.dict [])).1 rfl

/-- C9: the second handler is definitionally identical to the first:
for every object store, event and context both perform the same
operations and return the same result. -/
theorem classifier_handler_is_serialize_handler :
    classifier_lambda_handler = serialize_lambda_handler := rfl

/-- C2: at a concrete event that already carries the base64 image
produced by the first step, the classifier handler does not decode it
and does not run a prediction: it re-downloads the object, re-encodes
it, and returns an empty `inferences` list. -/
theorem classifier_returns_empty_inferences :
    classifier_lambda_handler ⟨[(("bkt", "img.png"), [1, 2, 3])]⟩
        (.dict [("image_data", .str "AQID"), ("s3_bucket", .str "bkt"),
                ("s3_key", .str "img.png"), ("inferences", .list [])]) (.dict []) =
      .ok (.dict [("statusCode", .int 200),
                  ("body", .dict [("image_data", .bytes "AQID"),
                                  ("s3_bucket", .str "bkt"),
                                  ("s3_key", .str "img.png"),
                                  ("inferences", .list [])])]) := rfl

end MLWorkflow
